import Mathlib

/-!
# Verification of the bluemira equilibrium state machine

A shallow embedding of `bluemira/equilibria/equilibrium.py` and
`bluemira/radiation_transport/advective_transport.py`.

Modelling conventions:
* machine floating-point numbers are modelled as exact rationals (`ℚ`);
* 2-D grid arrays (flux maps, current-density maps) are modelled as
  functions `ι → ℚ` from an abstract node-index type `ι`;
* external collaborators that live outside the distilled module
  (the Grad-Shafranov linear solver, the critical-point finder
  `find_OX_points`, the profile object's `jtor`, the coilset Green's
  functions, the interpolator, `calc_li3minargs`, and the scipy SLSQP
  schedule) are taken as parameters in an `Env` record, so the theorems
  hold for every behaviour of those collaborators;
* Python exceptions are modelled with explicit result constructors that
  carry the (in-place mutated) state visible to the caller at raise time.
-/

namespace Bluemira

/-- A 2-D grid array (flux map, current density map, ...) over node set `ι`. -/
abbrev FluxMap (ι : Type) := ι → ℚ

/-- A vector of profile shape coefficients (`profiles.shape.coeffs`). -/
abbrev ParamVec := List ℚ

/-- A critical point of the flux map: position and flux value
(`Opoint`/`Xpoint` records of `bluemira.equilibria.find`). -/
structure CritPoint where
  x : ℚ
  z : ℚ
  psi : ℚ
deriving DecidableEq

/-- The rectangular grid: bounds and resolution
(`bluemira.equilibria.grid.Grid`, as used by `equilibrium.py`). -/
structure Grid where
  xMin : ℚ
  xMax : ℚ
  zMin : ℚ
  zMax : ℚ
  nx : Nat
  nz : Nat
deriving DecidableEq

/-- `grid.x_size` (the eqdsk `xdim`). -/
def Grid.xSize (g : Grid) : ℚ := g.xMax - g.xMin

/-- `grid.z_size` (the eqdsk `zdim`). -/
def Grid.zSize (g : Grid) : ℚ := g.zMax - g.zMin

/-- `grid.z_mid` (the eqdsk `zmid`). -/
def Grid.zMid (g : Grid) : ℚ := (g.zMin + g.zMax) / 2

/-! ## Breakdown state (claims C1, C10)

`Breakdown` holds a coilset and a designated breakdown point; its flux is the
pure coil superposition (no plasma).  `coilPsiAt` is the coilset's point-wise
flux query `coilset.psi(x, z)`; `psiGreens` is the cached full-grid map
`coilset._psi_greens(self._psi_green)`. -/

structure BreakdownSt (ι : Type) where
  coilPsiAt : ℚ → ℚ → ℚ
  psiGreens : FluxMap ι
  breakdownPoint : ℚ × ℚ

/-- `Breakdown.psi(x, z)` with explicit coordinates: the pure coilset flux
(the `x is None and z is None` grid branch is `psiGreensMapQ` below). -/
def BreakdownSt.psiPointQ (b : BreakdownSt ι) (x z : ℚ) : ℚ :=
  b.coilPsiAt x z

/-- `Breakdown.psi()` with no arguments: the cached coil Green's map. -/
def BreakdownSt.psiGreensMapQ (b : BreakdownSt ι) : FluxMap ι :=
  b.psiGreens

/-- `Breakdown.set_breakdown_point(x_bd, z_bd)`. -/
def BreakdownSt.setBreakdownPoint (b : BreakdownSt ι) (xBd zBd : ℚ) :
    BreakdownSt ι :=
  { b with breakdownPoint := (xBd, zBd) }

/-- The `Breakdown.breakdown_psi` property: `self.psi(*self.breakdown_point)`. -/
def breakdownPsi (b : BreakdownSt ι) : ℚ :=
  b.psiPointQ b.breakdownPoint.1 b.breakdownPoint.2

/-- The default breakdown point computed in `Breakdown.__init__`:
`x_mid = grid.x_min + 0.5 * (grid.x_max + grid.x_min)`, point `(x_mid, 0)`. -/
def defaultBreakdownPoint (g : Grid) : ℚ × ℚ :=
  (g.xMin + (g.xMax + g.xMin) / 2, 0)

/-- `Breakdown.__init__`: the breakdown point is the `breakdown_point` kwarg
when supplied, else the default above. -/
def mkBreakdown (g : Grid) (coilPsiAt : ℚ → ℚ → ℚ) (greens : FluxMap ι)
    (breakdownPointArg : Option (ℚ × ℚ)) : BreakdownSt ι :=
  { coilPsiAt := coilPsiAt
    psiGreens := greens
    breakdownPoint := breakdownPointArg.getD (defaultBreakdownPoint g) }

/-- Modelled from the spec: "a query returning the minimum flux over that
region's boundary" — the minimum of the flux map evaluated on a given list of
boundary points of the breakdown region.  This definition follows the spec's
words and is compared against the source's `breakdown_psi` above. -/
def specBreakdownPsiMin (b : BreakdownSt ι) (boundaryPts : List (ℚ × ℚ)) :
    Option ℚ :=
  match boundaryPts.map (fun p => b.psiPointQ p.1 p.2) with
  | [] => none
  | a :: rest => some (rest.foldl min a)

/-! ## ChargedParticleSolver fraction validation (claim C8) -/

/-- The two fraction-sum failures of `ChargedParticleSolver._check_params`. -/
inductive AdvErr where
  | innerOuter
  | upperLower
deriving DecidableEq

/-- `ChargedParticleSolver._check_params`: raises `AdvectionTransportError`
when `f_outer_target + f_inner_target != 1.0` (checked first) or
`f_upper_target + f_lower_target != 1.0`. -/
def checkParams (fOuter fInner fUpper fLower : ℚ) : Except AdvErr Unit :=
  if fOuter + fInner ≠ 1 then .error .innerOuter
  else if fUpper + fLower ≠ 1 then .error .upperLower
  else .ok ()

/-- Errors that may escape `ChargedParticleSolver.__init__`: the fraction
validation error, or an index error when the equilibrium has no O-point
(`o_points[0]` on an empty list). -/
inductive CPSolverErr where
  | advect (e : AdvErr)
  | noOPoint
deriving DecidableEq

/-- The constructed solver state (the fields relevant to the claims). -/
structure CPSolver where
  fOuter : ℚ
  fInner : ℚ
  fUpper : ℚ
  fLower : ℚ
  dxMp : ℚ
  oPoint : CritPoint
deriving DecidableEq

/-- `ChargedParticleSolver.__init__`: parameters are stored, `_check_params`
runs immediately, then pre-processing takes `o_points[0]` from the
equilibrium's critical points. -/
def mkChargedParticleSolver (fOuter fInner fUpper fLower dxMp : ℚ)
    (oPoints : List CritPoint) : Except CPSolverErr CPSolver :=
  match checkParams fOuter fInner fUpper fLower with
  | .error e => .error (.advect e)
  | .ok _ =>
    match oPoints with
    | [] => .error .noOPoint
    | o :: _ =>
      .ok { fOuter := fOuter, fInner := fInner, fUpper := fUpper,
            fLower := fLower, dxMp := dxMp, oPoint := o }

/-! ## The Equilibrium state machine (claims C2, C3, C4, C6, C9)

The `Equilibrium` object aggregates the plasma field model, the coilset
contribution, the critical-point cache, the vertical stabilisation
controller, and the inductance-matching bookkeeping.  External collaborators
are parameters collected in `Env`. -/

/-- The plasma field model `PlasmaCoil(plasma_psi, j_tor, grid)`:
it stores the plasma flux map, its point-wise interpolant, and the
current-density map it was built from. -/
structure PlasmaCoil (ι : Type) where
  psiMap : FluxMap ι
  psiAt : ℚ → ℚ → ℚ
  jtor : Option (FluxMap ι)

/-- External collaborators of `equilibrium.py`, held abstract:
the theorems below hold for every behaviour of these functions.
`χ` is the (abstract) vertical controller state type. -/
structure Env (ι χ : Type) where
  /-- The constant `MU_0` (its value is irrelevant to every claim). -/
  mu0 : ℚ
  /-- The radial coordinate of each grid node (`self.x`). -/
  xCoord : ι → ℚ
  /-- Whether a node lies on the grid boundary ring. -/
  isBoundary : ι → Bool
  /-- The free-boundary Green's matrix applied to a current-density map
  (the boundary values produced by `FreeBoundary.__call__`). -/
  greensBoundary : FluxMap ι → FluxMap ι
  /-- The linear Grad-Shafranov solver `GSSolver` applied to a
  right-hand-side map (`self._solver(rhs)`). -/
  gsSolver : FluxMap ι → FluxMap ι
  /-- Grid-to-point interpolation used by `PlasmaCoil` for point queries. -/
  interp : FluxMap ι → ℚ → ℚ → ℚ
  /-- The critical-point finder `find_OX_points`:
  flux map to (O-points, X-points). -/
  findOX : FluxMap ι → List CritPoint × List CritPoint
  /-- `profiles.jtor(x, z, psi, o_points, x_points)`; it depends on the
  current profile shape coefficients, passed first. -/
  jtorOf : ParamVec → FluxMap ι → List CritPoint → List CritPoint → FluxMap ι
  /-- `controller.stabilise()`: updates the controller state from the
  current plasma state. -/
  stabilise : χ → PlasmaCoil ι → χ
  /-- `controller.psi()`: the controller's correction flux map. -/
  ctrlPsi : χ → FluxMap ι
  /-- `calc_li3minargs(...)`: the normalised internal inductance, as a
  function of the plasma model and the full flux map. -/
  liOf : PlasmaCoil ι → FluxMap ι → ℚ
  /-- The sequence of shape-coefficient vectors at which the scipy `SLSQP`
  optimiser evaluates the objective (its iteration budget is the length). -/
  trials : List ParamVec
  /-- `process_scipy_result(res)`: the coefficient vector returned by the
  optimiser on ordinary termination (`alpha_star`). -/
  finalParams : ParamVec

/-- The mutable state of an `Equilibrium` object (the `self` fields written
by `solve`, `solve_li` and the flux queries). -/
structure EqSt (ι χ : Type) where
  /-- `self.plasma`. -/
  plasma : PlasmaCoil ι
  /-- `self._jtor`: the cached current-density map. -/
  jtorCache : Option (FluxMap ι)
  /-- `self._o_points`: the O-point half of the critical-point cache. -/
  oPts : Option (List CritPoint)
  /-- `self._x_points`: the X-point half of the critical-point cache. -/
  xPts : Option (List CritPoint)
  /-- `self.coilset._psi_greens(self._psi_green)`: the coilset flux map on
  the grid for the current coil currents. -/
  coilGreens : FluxMap ι
  /-- `self.coilset.psi(x, z)`: the coilset point-wise flux query. -/
  coilPsiAt : ℚ → ℚ → ℚ
  /-- `self.controller`. -/
  ctrl : χ
  /-- `self._li_flag`: whether the profile is a `BetaLiIpProfile`. -/
  liFlag : Bool
  /-- `self._li`: the target normalised inductance. -/
  liTarget : ℚ
  /-- `self.profiles._l_i_rel_tol`. -/
  liRelTol : ℚ
  /-- `self._li_temp`: the last computed inductance. -/
  liTemp : Option ℚ
  /-- `self._li_iter`: the inductance iteration counter. -/
  liIter : Nat
  /-- `self.profiles.shape.coeffs`: the profile shape coefficients. -/
  coeffs : ParamVec

/-- `Equilibrium.psi()` with no arguments (full-grid query): stabilises the
controller when a current density is cached, then returns
`plasma + coilset Green's + controller correction`, together with the
mutated state (the controller is updated in place). -/
def psiGridM (E : Env ι χ) (s : EqSt ι χ) : FluxMap ι × EqSt ι χ :=
  let c := if s.jtorCache.isSome then E.stabilise s.ctrl s.plasma else s.ctrl
  (fun i => s.plasma.psiMap i + s.coilGreens i + E.ctrlPsi c i,
   { s with ctrl := c })

/-- `Equilibrium.psi(x, z)` with explicit coordinates:
`plasma.psi(x, z) + coilset.psi(x, z)` (no controller term). -/
def psiPoint (s : EqSt ι χ) (x z : ℚ) : ℚ :=
  s.plasma.psiAt x z + s.coilPsiAt x z

/-- The controller state used by the full-grid query (stabilised exactly
when a current density is cached). -/
def ctrlAfterGridQuery (E : Env ι χ) (s : EqSt ι χ) : χ :=
  if s.jtorCache.isSome then E.stabilise s.ctrl s.plasma else s.ctrl

/-- Modelled from the spec: `FreeBoundary.__call__(psi, jtor)` of
`bluemira.equilibria.boundary` (not under `src/`) — "mutates/derives
boundary flux values ... via a precomputed boundary Green's-function matrix
applied to the current-density map ... it has no effect on interior points
directly": the boundary ring of `ψ` is overwritten with the Green's values
of `j`, interior nodes are untouched. -/
def freeBoundary (E : Env ι χ) (ψ j : FluxMap ι) : FluxMap ι :=
  fun i => if E.isBoundary i then E.greensBoundary j i else ψ i

/-- Modelled from the spec: `apply_boundary(rhs, psi)` of
`bluemira.equilibria.boundary` (not under `src/`) — copies the boundary
values of the second map onto the boundary ring of the first. -/
def applyBoundaryMap (E : Env ι χ) (r ψ : FluxMap ι) : FluxMap ι :=
  fun i => if E.isBoundary i then ψ i else r i

/-- The right-hand side assembled by `solve` from the current plasma flux
`pψ` and a current density `j`:
`self.boundary(plasma_psi, jtor); rhs = -MU_0 * self.x * jtor;
apply_boundary(rhs, plasma_psi)`. -/
def assembleRhs (E : Env ι χ) (pψ j : FluxMap ι) : FluxMap ι :=
  applyBoundaryMap E (fun i => -E.mu0 * E.xCoord i * j i)
    (freeBoundary E pψ j)

/-- The tail of `Equilibrium.solve` once the current density `j` is known:
boundary update, right-hand-side assembly, linear solve,
`self._update_plasma(plasma_psi, jtor)` and `self._jtor = jtor`. -/
def gsStep (E : Env ι χ) (s : EqSt ι χ) (j : FluxMap ι) : EqSt ι χ :=
  let pψn := E.gsSolver (assembleRhs E s.plasma.psiMap j)
  { s with plasma := ⟨pψn, E.interp pψn, some j⟩, jtorCache := some j }

/-- `Equilibrium._clear_OX_points()`. -/
def clearOX (s : EqSt ι χ) : EqSt ι χ :=
  { s with oPts := none, xPts := none }

/-- The outcome of `Equilibrium.solve`.  `noOPoint` models the raised
`EquilibriaError("No O-point found in equilibrium.")`; it carries the state
as mutated in place at raise time, which remains visible to the caller. -/
inductive SolveResult (ι χ : Type) where
  | ok (s : EqSt ι χ)
  | noOPoint (s : EqSt ι χ)

/-- The caller-visible state after `solve` returns or raises. -/
def SolveResult.stateOf : SolveResult ι χ → EqSt ι χ
  | .ok s => s
  | .noOPoint s => s

/-- Whether `solve` raised the no-O-point error. -/
def SolveResult.isNoOPoint : SolveResult ι χ → Bool
  | .ok _ => false
  | .noOPoint _ => true

/-- `Equilibrium.solve(jtor, psi)`:
clears the critical-point cache; when no current density is supplied,
resolves `psi` (defaulting to the full-grid query, which stabilises the
controller), runs the critical-point search with `force_update=True`
(which stores its results in the cache), raises when no O-point was found,
otherwise computes the current density from the profile; in all successful
paths finishes with the linear solve and plasma refresh of `gsStep`. -/
def solveEq (E : Env ι χ) (s : EqSt ι χ)
    (jtorArg psiArg : Option (FluxMap ι)) : SolveResult ι χ :=
  let s := clearOX s
  match jtorArg with
  | some j => .ok (gsStep E s j)
  | none =>
    let pr := match psiArg with
      | some ψ => (ψ, s)
      | none => psiGridM E s
    let ψ := pr.1
    let s := pr.2
    let ox := E.findOX ψ
    let s := { s with oPts := some ox.1, xPts := some ox.2 }
    match ox.1 with
    | [] => .noOPoint s
    | o :: os => .ok (gsStep E s (E.jtorOf s.coeffs ψ (o :: os) ox.2))

/-! ## The inductance-matching optimiser `solve_li` (claim C6) -/

/-- Modelled from the spec: `abs_rel_difference` of
`bluemira.utilities.tools` (not under `src/`) — "the relative difference
between computed and target inductance". -/
def relDiff (a b : ℚ) : ℚ :=
  |(a - b) / b|

/-- One evaluation of the `minimise_dli` objective at shape coefficients
`p`: `adjust_parameters(x)`, recompute `jtor` from the (held fixed) flux
map and critical points, run the boundary/solve/plasma update of `solve`,
compute the inductance on the resulting full flux map (`self.psi()`, which
stabilises the controller under the previous `_jtor`), then store
`self._li_temp = li` and `self._jtor = jtor_opt`.  Returns the mutated
state and the computed inductance. -/
def liStep (E : Env ι χ) (ψ : FluxMap ι) (os xs : List CritPoint)
    (s : EqSt ι χ) (p : ParamVec) : EqSt ι χ × ℚ :=
  let s0 := { s with coeffs := p }
  let j := E.jtorOf s0.coeffs ψ os xs
  let pψn := E.gsSolver (assembleRhs E s0.plasma.psiMap j)
  let s1 := { s0 with plasma := ⟨pψn, E.interp pψn, some j⟩ }
  let pr := psiGridM E s1
  let li := E.liOf s1.plasma pr.1
  ({ pr.2 with liTemp := some li, jtorCache := some j }, li)

/-- The optimiser loop: evaluate the objective at each trial vector in
order; when an evaluation meets the tolerance the objectives raises
`StopIteration`, which aborts the loop (`true` flags the early exit);
otherwise `_li_iter` is incremented and the next trial is evaluated. -/
def runLi (E : Env ι χ) (ψ : FluxMap ι) (os xs : List CritPoint) :
    EqSt ι χ → List ParamVec → EqSt ι χ × Bool
  | s, [] => (s, false)
  | s, p :: ps =>
    let r := liStep E ψ os xs s p
    if relDiff r.2 r.1.liTarget ≤ r.1.liRelTol then (r.1, true)
    else runLi E ψ os xs { r.1 with liIter := r.1.liIter + 1 } ps

/-- The outcome of `Equilibrium.solve_li`.  `notBetaLi` models the
`EquilibriaError` raised when the profile has no inductance-matching
support. -/
inductive LiResult (ι χ : Type) where
  | ok (s : EqSt ι χ)
  | notBetaLi (s : EqSt ι χ)

/-- Whether `solve_li` returned normally. -/
def LiResult.isOk : LiResult ι χ → Bool
  | .ok _ => true
  | .notBetaLi _ => false

/-- `Equilibrium.solve_li(jtor, psi)` (the `jtor` argument is unused in the
source): guard on `_li_flag`; clear the critical-point cache; reset
`_li_iter`; resolve `psi`; run the critical-point search once (held fixed
across the inner loop); run the optimiser; a `StopIteration` escaping the
objective is caught (`pass`), so early exit returns normally; on ordinary
optimiser termination the result coefficients are installed. -/
def solveLi (E : Env ι χ) (s : EqSt ι χ) (psiArg : Option (FluxMap ι)) :
    LiResult ι χ :=
  if s.liFlag = false then .notBetaLi s
  else
    let s := { clearOX s with liIter := 0 }
    let pr := match psiArg with
      | some ψ => (ψ, s)
      | none => psiGridM E s
    let ψ := pr.1
    let s := pr.2
    let ox := E.findOX ψ
    let s := { s with oPts := some ox.1, xPts := some ox.2 }
    let rl := runLi E ψ ox.1 ox.2 s E.trials
    if rl.2 then .ok rl.1
    else .ok { rl.1 with coeffs := E.finalParams }

/-! ## Vertical stabilisation strategy selection (claim C7) -/

/-- The two controller variants that can be installed
(`DummyController(self.plasma.psi())` and `VirtualController(self, gz=2.2)`). -/
inductive Controller (ι : Type) where
  | dummy (psiRef : FluxMap ι)
  | virtualC (gz : ℚ)

/-- The exceptions `Equilibrium.set_vcontrol` can raise:
`NotImplementedError` for the string `"feedback"`, and the `ValueError`
asking to select a valid strategy for any other unrecognised string. -/
inductive VctrlErr where
  | notImplemented
  | invalidStrategy
deriving DecidableEq

/-- The strategy string selecting the `VirtualController`. -/
def virtualTag : String := "virtual"

/-- The strategy string of the unimplemented feedback branch. -/
def feedbackTag : String := "feedback"

/-- `Equilibrium.set_vcontrol(vcontrol)`. -/
def setVcontrol (plasmaPsi : FluxMap ι) (vcontrol : Option String) :
    Except VctrlErr (Controller ι) :=
  match vcontrol with
  | some v =>
    if v = "virtual" then .ok (.virtualC (11 / 5))
    else if v = "feedback" then .error .notImplemented
    else .error .invalidStrategy
  | none => .ok (.dummy plasmaPsi)

/-- The tail of `Equilibrium.__init__`: after `_set_init_plasma` has built
the plasma model, `set_vcontrol(vcontrol)` runs and any error it raises
escapes the constructor; on success the selected controller is installed in
the state. -/
def mkEquilibrium (plasma : PlasmaCoil ι) (jtor : Option (FluxMap ι))
    (coilGreens : FluxMap ι) (coilPsiAt : ℚ → ℚ → ℚ)
    (vcontrol : Option String) (liFlag : Bool) (liTarget liRelTol : ℚ)
    (coeffs : ParamVec) : Except VctrlErr (EqSt ι (Controller ι)) :=
  (setVcontrol plasma.psiMap vcontrol).map fun c =>
    { plasma := plasma, jtorCache := jtor, oPts := none, xPts := none,
      coilGreens := coilGreens, coilPsiAt := coilPsiAt, ctrl := c,
      liFlag := liFlag, liTarget := liTarget, liRelTol := liRelTol,
      liTemp := none, liIter := 0, coeffs := coeffs }

/-! ## Serialization round trip (claim C5) -/

/-- The coil group vectors `coilset.to_group_vecs()`:
positions, sizes and currents. -/
structure CoilVecs where
  xc : List ℚ
  zc : List ℚ
  dxc : List ℚ
  dzc : List ℚ
  ic : List ℚ
deriving DecidableEq

/-- The provenance branch `MHDState._get_eqdsk` dispatches on via the file
`name` field: a bluemira-written file (`f"{filename}_{header}"` with the
default headers) always contains `"equilibria"`. -/
inductive EqdskOrigin where
  | equilibria
  | scene
  | fiesta
  | create
deriving DecidableEq

/-- The eqdsk-like exchange record (the fields of `Equilibrium.to_dict`
relevant to grid, coils and flux). -/
structure EqdskData (ι : Type) where
  origin : EqdskOrigin
  nx : Nat
  nz : Nat
  xdim : ℚ
  zdim : ℚ
  xgrid1 : ℚ
  zmid : ℚ
  psi : FluxMap ι
  coils : CoilVecs
  cplasma : ℚ

/-- `Equilibrium.to_dict` (grid, coil and flux fields): `nx`/`nz` from the
flux array shape, `xdim = grid.x_size`, `zdim = grid.z_size`,
`xgrid1 = grid.x_min`, `zmid = grid.z_mid`, `psi = self.psi()`,
coil vectors from `to_group_vecs`, `cplasma = profiles.I_p`.  The origin is
`equilibria` because `to_eqdsk` writes `name = f"{filename}_BP_equilibria"`. -/
def toDictE (g : Grid) (c : CoilVecs) (ψ : FluxMap ι) (ip : ℚ) :
    EqdskData ι :=
  { origin := .equilibria, nx := g.nx, nz := g.nz,
    xdim := g.xSize, zdim := g.zSize,
    xgrid1 := g.xMin, zmid := g.zMid,
    psi := ψ, coils := c, cplasma := ip }

/-- The psi normalisation branch of `MHDState._get_eqdsk`: bluemira, SCENE
and fiesta files keep `e.psi`; CREATE files divide by 2π (`twoPi` is the
floating-point value of `2 * np.pi`, kept abstract). -/
def eqdskPsi (twoPi : ℚ) (d : EqdskData ι) : FluxMap ι :=
  match d.origin with
  | .equilibria => d.psi
  | .scene => d.psi
  | .fiesta => d.psi
  | .create => fun i => d.psi i / twoPi

/-- The coil-size normalisation branch of `CoilSetMHDState._get_eqdsk`:
SCENE and CREATE files halve `dxc`/`dzc`; bluemira and fiesta files are
read back unchanged. -/
def eqdskCoils (d : EqdskData ι) : CoilVecs :=
  match d.origin with
  | .equilibria => d.coils
  | .fiesta => d.coils
  | _ =>
    { d.coils with dxc := d.coils.dxc.map (· / 2),
                   dzc := d.coils.dzc.map (· / 2) }

/-- Modelled from the spec: `Grid.from_eqdsk` of `bluemira.equilibria.grid`
(not under `src/`) — the grid is reconstructed from the record's dimensions
and bounds (`xgrid1`, `xdim`, `zmid`, `zdim`, `nx`, `nz`). -/
def loadGrid (d : EqdskData ι) : Grid :=
  { xMin := d.xgrid1, xMax := d.xgrid1 + d.xdim,
    zMin := d.zmid - d.zdim / 2, zMax := d.zmid + d.zdim / 2,
    nx := d.nx, nz := d.nz }

/-- Modelled from the spec: `CoilSet.from_group_vecs` (not under `src/`) —
coils are rebuilt from the position/size/current vectors of the record,
after the provenance normalisation of `_get_eqdsk`. -/
def loadCoils (d : EqdskData ι) : CoilVecs :=
  eqdskCoils d

/-- The full flux map of the reloaded equilibrium.  Per
`Equilibrium.__init__` / `_set_init_plasma`, the loaded psi has the coilset
contribution subtracted to give the plasma flux; the full-grid query then
adds the coilset contribution back, plus the controller correction.
Modelled from the spec: the `DummyController` installed by
`vcontrol=None` is "a no-op variant", so its correction field is
identically zero (`bluemira.equilibria.num_control` is not under `src/`). -/
def reloadFlux (twoPi : ℚ) (coilMap : FluxMap ι) (d : EqdskData ι) :
    FluxMap ι :=
  let ψ := eqdskPsi twoPi d
  let plasmaPsi : FluxMap ι := fun i => ψ i - coilMap i
  fun i => plasmaPsi i + coilMap i + 0

/-! ## Theorems -/

/-- A concrete breakdown state used to compare `breakdown_psi` with the
spec's minimum-over-region-boundary query: coil flux `ψ(x, z) = x`,
breakdown point `(5, 0)`. -/
def c1Breakdown : BreakdownSt (Fin 1) :=
  { coilPsiAt := fun x _ => x
    psiGreens := fun _ => 0
    breakdownPoint := (5, 0) }

/-- Four sample points on the boundary of a radius-1 breakdown region
centred at `(5, 0)`. -/
def c1BoundaryPts : List (ℚ × ℚ) :=
  [(4, 0), (6, 0), (5, 1), (5, -1)]

/-- C1, counterexample: for the coil flux `ψ(x, z) = x` and breakdown point
`(5, 0)`, `breakdown_psi` evaluates to `5` (the flux at the region centre),
while the minimum of the flux over the boundary of the radius-1 region is
`4`; the two disagree, so `breakdown_psi` is not the minimum of the flux
over the breakdown region boundary. -/
theorem c1_counterexample :
    breakdownPsi c1Breakdown = 5 ∧
    specBreakdownPsiMin c1Breakdown c1BoundaryPts = some 4 ∧
    (5 : ℚ) ≠ 4 := by
  refine ⟨rfl, by decide, by decide⟩

/-- C1, amended: for every breakdown state (coil-only, zero plasma
current), `breakdown_psi` equals the point-wise flux query evaluated at the
breakdown point itself — the centre of the breakdown region — i.e. the
coilset flux at that point, not a minimum over the region boundary. -/
theorem c1_breakdown_psi_at_centre (b : BreakdownSt ι) (xBd zBd : ℚ) :
    breakdownPsi (b.setBreakdownPoint xBd zBd) = b.coilPsiAt xBd zBd := rfl

/-- C10: for the grid with radial extent `[2, 10]`, the default breakdown
point computed by `Breakdown.__init__` is `(8, 0)` — the source computes
`x_min + 0.5 * (x_max + x_min)` — whereas the centre of the radial extent
on the midplane, as the in-code comment ("Set default breakdown point to
grid centre") and the claim require, is `((2 + 10) / 2, 0) = (6, 0)`. -/
theorem c10_default_breakdown_point_bug :
    (mkBreakdown (ι := Fin 1) ⟨2, 10, -5, 5, 65, 65⟩ (fun _ _ => 0)
        (fun _ => 0) none).breakdownPoint = (8, 0) ∧
    ((8 : ℚ), (0 : ℚ)) ≠ ((2 + 10) / 2, 0) := by
  constructor
  · simp only [mkBreakdown, defaultBreakdownPoint, Option.getD, Prod.mk.injEq]
    norm_num
  · simp only [ne_eq, Prod.mk.injEq]
    norm_num

/-- C8: `ChargedParticleSolver.__init__` raises the
`AdvectionTransportError` configuration error if and only if
`f_outer_target + f_inner_target ≠ 1` or
`f_upper_target + f_lower_target ≠ 1`; when both pairs sum to 1 the
fraction validation passes (any remaining construction failure is the
distinct no-O-point index error, not the configuration error). -/
theorem c8_fraction_sum_validation (fOuter fInner fUpper fLower dxMp : ℚ)
    (oPoints : List CritPoint) :
    (∃ e, mkChargedParticleSolver fOuter fInner fUpper fLower dxMp oPoints
        = .error (.advect e)) ↔
      (fOuter + fInner ≠ 1 ∨ fUpper + fLower ≠ 1) := by
  by_cases h1 : fOuter + fInner = 1
  · by_cases h2 : fUpper + fLower = 1
    · simp only [mkChargedParticleSolver, checkParams, h1, h2]
      cases oPoints <;> simp
    · simp only [mkChargedParticleSolver, checkParams, h1, h2]
      simp [h2]
  · simp only [mkChargedParticleSolver, checkParams]
    simp [h1]

/-- C5: serialising an equilibrium via `to_dict`/`to_eqdsk` and reloading
via `from_eqdsk` reproduces the grid bounds and resolution and the coil
positions, sizes and currents exactly; moreover the reloaded full flux map
(plasma flux = loaded psi minus coil flux, plus coil flux, plus the no-op
controller correction) equals the serialised flux map exactly, so
flux-derived fields can differ only after a re-solve. -/
theorem c5_round_trip (g : Grid) (c : CoilVecs) (ψ : FluxMap ι)
    (ip twoPi : ℚ) (coilMap : FluxMap ι) :
    loadGrid (toDictE g c ψ ip) = g ∧
    loadCoils (toDictE g c ψ ip) = c ∧
    reloadFlux twoPi coilMap (toDictE g c ψ ip) = ψ := by
  refine ⟨?_, rfl, ?_⟩
  · cases g with
    | mk xMin xMax zMin zMax nx nz =>
      simp only [loadGrid, toDictE, Grid.xSize, Grid.zSize, Grid.zMid,
        Grid.mk.injEq]
      and_intros <;> first | trivial | ring1
  · funext i
    simp only [reloadFlux, eqdskPsi, toDictE]
    ring

/-- The assembled right-hand side does not depend on the plasma flux map it
is built from: its boundary ring is overwritten with the Green's values of
the current density, and its interior is `-MU_0 * x * jtor`. -/
theorem assembleRhs_plasma_indep (E : Env ι χ) (pA pB j : FluxMap ι) :
    assembleRhs E pA j = assembleRhs E pB j := by
  funext i
  simp only [assembleRhs, applyBoundaryMap, freeBoundary]
  by_cases hb : E.isBoundary i <;> simp [hb]

/-- C2 (amended): when `solve()` is called with no current-density argument
and the critical-point search on the input flux map finds no O-point, it
raises the fatal `EquilibriaError`; the plasma field model (and with it
the plasma flux contribution), the cached current-density map and the
controller are left unchanged, while the critical-point cache — cleared at
entry — has been repopulated by the failed search, so at raise time it
holds an empty O-point list together with whatever X-points the search
found, rather than remaining in its cleared (`None`) state. -/
theorem c2_no_opoint_failure (E : Env ι χ) (s : EqSt ι χ) (ψ0 : FluxMap ι)
    (h : (E.findOX ψ0).1 = []) :
    (solveEq E s none (some ψ0)).isNoOPoint = true ∧
    (solveEq E s none (some ψ0)).stateOf.plasma = s.plasma ∧
    (solveEq E s none (some ψ0)).stateOf.jtorCache = s.jtorCache ∧
    (solveEq E s none (some ψ0)).stateOf.ctrl = s.ctrl ∧
    (solveEq E s none (some ψ0)).stateOf.oPts = some [] ∧
    (solveEq E s none (some ψ0)).stateOf.xPts = some (E.findOX ψ0).2 := by
  rcases hfe : E.findOX ψ0 with ⟨ol, xl⟩
  rw [hfe] at h
  simp only at h
  subst h
  simp [solveEq, clearOX, hfe, SolveResult.stateOf, SolveResult.isNoOPoint]

/-- A concrete environment whose critical-point search finds no O-point and
one X-point on every flux map. -/
def c2Env : Env (Fin 1) Unit :=
  { mu0 := 0, xCoord := fun _ => 1, isBoundary := fun _ => false,
    greensBoundary := fun _ _ => 0, gsSolver := fun _ _ => 1,
    interp := fun ψ _ _ => ψ 0,
    findOX := fun _ => ([], [⟨1, 2, 3⟩]),
    jtorOf := fun _ _ _ _ _ => 0, stabilise := fun _ _ => (),
    ctrlPsi := fun _ _ => 0, liOf := fun _ _ => 1,
    trials := [[0]], finalParams := [0] }

/-- A concrete equilibrium state used to instantiate the solve theorems. -/
def solveSt : EqSt (Fin 1) Unit :=
  { plasma := ⟨fun _ => 0, fun _ _ => 0, none⟩, jtorCache := none,
    oPts := none, xPts := none, coilGreens := fun _ => 0,
    coilPsiAt := fun _ _ => 0, ctrl := (), liFlag := true, liTarget := 1,
    liRelTol := 0, liTemp := none, liIter := 0, coeffs := [0] }

/-- C2, witness: the amended no-O-point theorem instantiated on the
concrete environment `c2Env` and state `solveSt` with the zero flux map. -/
theorem c2_no_opoint_failure_witness :
    ((c2Env.findOX (fun _ => 0)).1 = [] ∧
     ((solveEq c2Env solveSt none (some fun _ => 0)).isNoOPoint = true ∧
      (solveEq c2Env solveSt none (some fun _ => 0)).stateOf.plasma
        = solveSt.plasma ∧
      (solveEq c2Env solveSt none (some fun _ => 0)).stateOf.jtorCache
        = solveSt.jtorCache ∧
      (solveEq c2Env solveSt none (some fun _ => 0)).stateOf.ctrl
        = solveSt.ctrl ∧
      (solveEq c2Env solveSt none (some fun _ => 0)).stateOf.oPts
        = some [] ∧
      (solveEq c2Env solveSt none (some fun _ => 0)).stateOf.xPts
        = some (c2Env.findOX (fun _ => 0)).2)) :=
  ⟨rfl, c2_no_opoint_failure c2Env solveSt (fun _ => 0) rfl⟩

/-- C2, counterexample: after the failed solve on `c2Env`/`solveSt`, the
critical-point cache is not in its cleared state: both halves are
populated (`Some`), the X-point half with the failed search's X-point —
so "only the critical-point cache having been cleared" is false of the
post-raise state. -/
theorem c2_cache_not_cleared_counterexample :
    (solveEq c2Env solveSt none (some fun _ => 0)).isNoOPoint = true ∧
    (solveEq c2Env solveSt none (some fun _ => 0)).stateOf.oPts
      = some [] ∧
    (solveEq c2Env solveSt none (some fun _ => 0)).stateOf.xPts
      = some [⟨1, 2, 3⟩] ∧
    (some [(⟨1, 2, 3⟩ : CritPoint)] : Option (List CritPoint)) ≠ none := by
  refine ⟨rfl, rfl, rfl, by simp⟩

/-- C3 (amended): a successful `solve()` with no current-density argument
refreshes the plasma field model and the cached current-density map to the
outputs of this solve, and refreshes the critical-point cache in the same
call — but with the O- and X-points found on the *input* flux map, which
are not recomputed against the flux map the solve produces. -/
theorem c3_solve_refreshes_state (E : Env ι χ) (s : EqSt ι χ)
    (ψ0 : FluxMap ι) (o : CritPoint) (os xs : List CritPoint)
    (h : E.findOX ψ0 = (o :: os, xs)) :
    solveEq E s none (some ψ0) =
      .ok (gsStep E
            { clearOX s with oPts := some (o :: os), xPts := some xs }
            (E.jtorOf s.coeffs ψ0 (o :: os) xs)) := by
  simp [solveEq, clearOX, h]

/-- A concrete environment whose critical-point search depends on the flux
map: it reports the O-point `(0,0,0)` on the zero map and the O-point
`(1,1,1)` on any other map; its linear solver returns the constant-1 map. -/
def c3Env : Env (Fin 1) Unit :=
  { mu0 := 0, xCoord := fun _ => 1, isBoundary := fun _ => false,
    greensBoundary := fun _ _ => 0, gsSolver := fun _ _ => 1,
    interp := fun ψ _ _ => ψ 0,
    findOX := fun ψ => if ψ 0 = 0 then ([⟨0, 0, 0⟩], []) else ([⟨1, 1, 1⟩], []),
    jtorOf := fun _ _ _ _ _ => 0, stabilise := fun _ _ => (),
    ctrlPsi := fun _ _ => 0, liOf := fun _ _ => 1,
    trials := [[0]], finalParams := [0] }

/-- C3, witness: the amended refresh theorem instantiated on `c3Env` and
`solveSt` with the zero input flux map. -/
theorem c3_solve_refreshes_state_witness :
    (c3Env.findOX (fun _ => 0) = ([⟨0, 0, 0⟩], []) ∧
     solveEq c3Env solveSt none (some fun _ => 0) =
       .ok (gsStep c3Env
             { clearOX solveSt with oPts := some [⟨0, 0, 0⟩], xPts := some [] }
             (c3Env.jtorOf solveSt.coeffs (fun _ => 0) [⟨0, 0, 0⟩] []))) :=
  ⟨by norm_num [c3Env], c3_solve_refreshes_state c3Env solveSt (fun _ => 0)
    ⟨0, 0, 0⟩ [] [] (by norm_num [c3Env])⟩

/-- C3, counterexample: on `c3Env`/`solveSt`, the successful solve leaves
the critical-point cache holding the O-point found on the input flux map
(`(0,0,0)`), while the critical-point search on the flux map produced by
that solve yields a different O-point (`(1,1,1)`): the cache is not
consistent with the flux map the solve produced. -/
theorem c3_stale_cache_counterexample :
    (solveEq c3Env solveSt none (some fun _ => 0)).stateOf.oPts
      = some [⟨0, 0, 0⟩] ∧
    (c3Env.findOX
        (psiGridM c3Env
          (solveEq c3Env solveSt none (some fun _ => 0)).stateOf).1).1
      = [⟨1, 1, 1⟩] ∧
    some [(⟨0, 0, 0⟩ : CritPoint)] ≠ some [(⟨1, 1, 1⟩ : CritPoint)] := by
  refine ⟨?_, ?_, by simp⟩
  · norm_num [solveEq, clearOX, c3Env, solveSt, SolveResult.stateOf, gsStep]
  · norm_num [solveEq, clearOX, c3Env, solveSt, SolveResult.stateOf, gsStep,
      psiGridM, assembleRhs, applyBoundaryMap, freeBoundary]

/-- C4: `solve()` is idempotent under fixed inputs: with the coil currents,
profile parameters and environment fixed, if a solve from state `s` with
explicit starting flux `ψ0` succeeds and produces state `s1`, then a second
solve from `s1` with the same starting flux produces exactly the same
state `s1` (exact equality in the exact-arithmetic model, hence equality
within floating-point tolerance in the source). -/
theorem c4_solve_idempotent (E : Env ι χ) (s s1 : EqSt ι χ)
    (ψ0 : FluxMap ι) (h : solveEq E s none (some ψ0) = .ok s1) :
    solveEq E s1 none (some ψ0) = .ok s1 := by
  rcases hfe : E.findOX ψ0 with ⟨ol, xl⟩
  cases ol with
  | nil => simp [solveEq, clearOX, hfe] at h
  | cons o os =>
    simp only [solveEq, clearOX, hfe] at h ⊢
    rw [SolveResult.ok.injEq] at h
    subst h
    simp only [gsStep]
    rw [assembleRhs_plasma_indep E
      (E.gsSolver (assembleRhs E s.plasma.psiMap
        (E.jtorOf s.coeffs ψ0 (o :: os) xl))) s.plasma.psiMap
      (E.jtorOf s.coeffs ψ0 (o :: os) xl)]

/-- C4, witness: the idempotence theorem instantiated on `c3Env` and
`solveSt` with the zero starting flux; `c4FirstSolve` names the state the
first solve produces. -/
def c4FirstSolve : EqSt (Fin 1) Unit :=
  (solveEq c3Env solveSt none (some fun _ => 0)).stateOf

/-- C4, witness: discharging the hypothesis at the concrete first solve. -/
theorem c4_solve_idempotent_witness :
    (solveEq c3Env solveSt none (some fun _ => 0) = .ok c4FirstSolve) ∧
    solveEq c3Env c4FirstSolve none (some fun _ => 0) = .ok c4FirstSolve :=
  ⟨rfl, c4_solve_idempotent c3Env solveSt c4FirstSolve (fun _ => 0) rfl⟩

/-- C6: for an equilibrium with an inductance-matching profile
(`_li_flag` set), `solve_li()` always returns normally — the
`StopIteration` used for the early exit never propagates to the caller —
and when an objective evaluation finds the relative difference between
computed and target inductance at or below the configured tolerance, the
optimiser loop stops at that evaluation (the remaining trial vectors are
not evaluated), which is the early-exit path; otherwise the loop runs
through the optimiser's own trial budget and returns normally as well. -/
theorem c6_solve_li_early_exit (E : Env ι χ) (s s0 : EqSt ι χ)
    (psiArg : Option (FluxMap ι)) (ψ : FluxMap ι) (os xs : List CritPoint)
    (p : ParamVec) (ps : List ParamVec)
    (hflag : s.liFlag = true)
    (htol : relDiff (liStep E ψ os xs s0 p).2
        (liStep E ψ os xs s0 p).1.liTarget
        ≤ (liStep E ψ os xs s0 p).1.liRelTol) :
    (∃ s', solveLi E s psiArg = .ok s') ∧
    runLi E ψ os xs s0 (p :: ps) = ((liStep E ψ os xs s0 p).1, true) := by
  constructor
  · have hni : ¬s.liFlag = false := by simp [hflag]
    simp only [solveLi, if_neg hni]
    split
    · exact ⟨_, rfl⟩
    · exact ⟨_, rfl⟩
  · simp only [runLi]
    rw [if_pos htol]

/-- C6, witness: on `c3Env` (whose inductance evaluation returns the
constant `1`) and `solveSt` (target inductance `1`, relative tolerance
`0`), the first objective evaluation meets the tolerance, the loop stops
there, and `solve_li` returns normally. -/
theorem c6_solve_li_early_exit_witness :
    (solveSt.liFlag = true ∧
     relDiff (liStep c3Env (fun _ => 0) [] [] solveSt [0]).2
        (liStep c3Env (fun _ => 0) [] [] solveSt [0]).1.liTarget
        ≤ (liStep c3Env (fun _ => 0) [] [] solveSt [0]).1.liRelTol) ∧
    ((∃ s', solveLi c3Env solveSt none = .ok s') ∧
     runLi c3Env (fun _ => 0) [] [] solveSt [[0]] =
       ((liStep c3Env (fun _ => 0) [] [] solveSt [0]).1, true)) :=
  ⟨⟨rfl, by norm_num [liStep, relDiff, c3Env, solveSt, psiGridM]⟩,
   c6_solve_li_early_exit c3Env solveSt solveSt none (fun _ => 0) [] []
     [0] [] rfl (by norm_num [liStep, relDiff, c3Env, solveSt, psiGridM])⟩

/-- C7 (amended): the strategy selection of `Equilibrium.set_vcontrol`,
run inside `Equilibrium.__init__`: `None` installs the no-op
`DummyController` anchored on the plasma flux; `"virtual"` installs the
`VirtualController` with gain `2.2`; the string `"feedback"` fails at
construction with `NotImplementedError` (not the configuration
`ValueError`); and every other string fails at construction with the
configuration `ValueError` asking to select a valid strategy. -/
theorem c7_vcontrol_selection (plasma : PlasmaCoil ι)
    (jtor : Option (FluxMap ι)) (cg : FluxMap ι) (cp : ℚ → ℚ → ℚ)
    (lf : Bool) (lt lr : ℚ) (cs : ParamVec) (v : Option String) :
    (v = none →
      ∃ st, mkEquilibrium plasma jtor cg cp v lf lt lr cs = .ok st ∧
        st.ctrl = .dummy plasma.psiMap) ∧
    (v = some virtualTag →
      ∃ st, mkEquilibrium plasma jtor cg cp v lf lt lr cs = .ok st ∧
        st.ctrl = .virtualC (11 / 5)) ∧
    (v = some feedbackTag →
      mkEquilibrium plasma jtor cg cp v lf lt lr cs
        = .error .notImplemented) ∧
    (∀ w : String, v = some w → w ≠ virtualTag → w ≠ feedbackTag →
      mkEquilibrium plasma jtor cg cp v lf lt lr cs
        = .error .invalidStrategy) := by
  refine ⟨?_, ?_, ?_, ?_⟩
  · rintro rfl
    exact ⟨_, rfl, rfl⟩
  · rintro rfl
    exact ⟨_, rfl, rfl⟩
  · rintro rfl
    rfl
  · rintro w rfl hw1 hw2
    simp only [virtualTag, feedbackTag] at hw1 hw2
    simp [mkEquilibrium, setVcontrol, hw1, hw2, Except.map]

/-- A concrete plasma model for the controller-selection instances. -/
def c7Plasma : PlasmaCoil (Fin 1) :=
  ⟨fun _ => 0, fun _ _ => 0, none⟩

/-- The unrecognised strategy string used in the C7 instances. -/
def bananaTag : String := "banana"

/-- C7, witness: the selection theorem applied at the unrecognised strategy
selection `bananaTag`, which fails at construction with the configuration
`ValueError`. -/
theorem c7_vcontrol_selection_witness :
    ((some bananaTag : Option String) = some bananaTag ∧
     bananaTag ≠ virtualTag ∧ bananaTag ≠ feedbackTag) ∧
    mkEquilibrium c7Plasma none (fun _ => 0) (fun _ _ => 0)
        (some bananaTag) false 0 0 [] = .error .invalidStrategy :=
  ⟨⟨rfl, by decide, by decide⟩,
   (c7_vcontrol_selection c7Plasma none (fun _ => 0) (fun _ _ => 0)
       false 0 0 [] (some bananaTag)).2.2.2 bananaTag rfl (by decide)
     (by decide)⟩

/-- C7, counterexample: selecting the unsupported strategy `"feedback"`
fails at construction with `NotImplementedError`, which is a different
error from the configuration `ValueError` raised for other invalid
selections — so "an unsupported selection fails with a configuration
error" is false as stated. -/
theorem c7_feedback_counterexample :
    mkEquilibrium c7Plasma none (fun _ => 0) (fun _ _ => 0)
        (some feedbackTag) false 0 0 [] = .error .notImplemented ∧
    VctrlErr.notImplemented ≠ VctrlErr.invalidStrategy :=
  ⟨rfl, by decide⟩

/-- C9: the point-wise flux query `psi(x, z)` returns only the sum of the
plasma and coilset contributions; the controller correction enters only
the no-argument full-grid query, so whenever the (possibly stabilised)
controller correction at a grid node is nonzero, the full-grid flux map
differs at that node from the point query evaluated there (the hypotheses
state that the plasma and coilset point interpolants agree with their grid
maps at that node). -/
theorem c9_point_query_excludes_controller (E : Env ι χ) (s : EqSt ι χ)
    (i : ι) (x z : ℚ)
    (hp : s.plasma.psiAt x z = s.plasma.psiMap i)
    (hc : s.coilPsiAt x z = s.coilGreens i)
    (hnz : E.ctrlPsi (ctrlAfterGridQuery E s) i ≠ 0) :
    psiPoint s x z = s.plasma.psiAt x z + s.coilPsiAt x z ∧
    (psiGridM E s).1 i ≠ psiPoint s x z := by
  refine ⟨rfl, ?_⟩
  simp only [psiGridM, psiPoint, ctrlAfterGridQuery] at *
  rw [hp, hc]
  intro hEq
  apply hnz
  linarith

/-- A concrete environment whose controller correction is the constant 1. -/
def c9Env : Env (Fin 1) Unit :=
  { mu0 := 0, xCoord := fun _ => 1, isBoundary := fun _ => false,
    greensBoundary := fun _ _ => 0, gsSolver := fun _ _ => 1,
    interp := fun ψ _ _ => ψ 0,
    findOX := fun _ => ([], []),
    jtorOf := fun _ _ _ _ _ => 0, stabilise := fun _ _ => (),
    ctrlPsi := fun _ _ => 1, liOf := fun _ _ => 1,
    trials := [], finalParams := [] }

/-- A concrete state whose plasma and coil point interpolants agree with
their grid maps at node 0. -/
def c9St : EqSt (Fin 1) Unit :=
  { plasma := ⟨fun _ => 2, fun _ _ => 2, none⟩, jtorCache := none,
    oPts := none, xPts := none, coilGreens := fun _ => 3,
    coilPsiAt := fun _ _ => 3, ctrl := (), liFlag := false, liTarget := 0,
    liRelTol := 0, liTemp := none, liIter := 0, coeffs := [] }

/-- C9, witness: on `c9Env`/`c9St` the controller correction at node 0 is
`1 ≠ 0`, and indeed the full-grid flux map at node 0 (`2 + 3 + 1`) differs
from the point query at that node (`2 + 3`). -/
theorem c9_point_query_excludes_controller_witness :
    (c9St.plasma.psiAt 1 0 = c9St.plasma.psiMap 0 ∧
     c9St.coilPsiAt 1 0 = c9St.coilGreens 0 ∧
     c9Env.ctrlPsi (ctrlAfterGridQuery c9Env c9St) 0 ≠ 0) ∧
    (psiPoint c9St 1 0 = c9St.plasma.psiAt 1 0 + c9St.coilPsiAt 1 0 ∧
     (psiGridM c9Env c9St).1 0 ≠ psiPoint c9St 1 0) :=
  ⟨⟨rfl, rfl, by norm_num [c9Env, c9St, ctrlAfterGridQuery]⟩,
   c9_point_query_excludes_controller c9Env c9St 0 1 0 rfl rfl
     (by norm_num [c9Env, c9St, ctrlAfterGridQuery])⟩

end Bluemira
